import Mathlib

/-!
Verification of the wbtx trading engine's core components against its
natural-language specification.  Python numbers are modelled with exact
arithmetic: unbounded integers as `ℤ`/`ℕ` and floats as `ℚ` (the source
performs no operation whose float rounding the spec depends on; where the
source applies Python's `int(...)` to a float we use truncation toward
zero, `pyInt`).  Stateful code is embedded by explicit state passing;
fallible code returns `Except String`, with the error strings abbreviating
the `RuntimeError` messages of the source.
-/

namespace Wbtx

/-- Python's `int(...)` applied to a (real-valued) number: truncation
toward zero. -/
def pyInt (q : ℚ) : ℤ :=
  if 0 ≤ q then ⌊q⌋ else ⌈q⌉

theorem pyInt_of_nonneg (q : ℚ) (h : 0 ≤ q) : pyInt q = ⌊q⌋ := by
  simp [pyInt, h]

/-!
## NonceSequencer — `src/core/nonce_manager.py`, `NonceManager`

`__init__` reads the chain's confirmed transaction count (the `base`);
`next_nonce` runs `current = self._nonce; self._nonce += 1; return current`
entirely inside `async with self._lock`, with no suspension point between
the read and the increment, so every call is one atomic step and any
interleaving of concurrent callers is equivalent to some serialisation of
atomic `next` steps.  We model the state as the `_nonce` counter.
-/

/-- One `next_nonce()` call: returns the current counter and the
incremented state. -/
def next_nonce (s : ℕ) : ℕ × ℕ :=
  (s, s + 1)

/-- The values returned by `n` serialized `next_nonce()` calls starting
from counter state `s`. -/
def nonce_run : ℕ → ℕ → List ℕ
  | _, 0 => []
  | s, n + 1 => (next_nonce s).1 :: nonce_run (next_nonce s).2 n

theorem nonce_run_eq_range' : ∀ (n s : ℕ), nonce_run s n = List.range' s n
  | 0, _ => rfl
  | n + 1, s => by
    simpa [nonce_run, next_nonce, List.range'] using nonce_run_eq_range' n (s + 1)

/-- **C1** — For the base value the NonceSequencer was initialized with,
`N` successive `next()` calls on one sequencer instance return exactly the
values `{base, base+1, …, base+N-1}`, each exactly once, with no gaps and
no repeats (the lock makes each call atomic, so any interleaving is a
serialisation of these steps). -/
theorem C1_nonce_monotonicity (base N : ℕ) :
    nonce_run base N = List.range' base N ∧
    (nonce_run base N).Nodup ∧
    (nonce_run base N).length = N ∧
    (∀ v, v ∈ nonce_run base N ↔ base ≤ v ∧ v < base + N) := by
  refine ⟨nonce_run_eq_range' N base, ?_, ?_, ?_⟩
  · rw [nonce_run_eq_range']
    exact List.nodup_range' ..
  · rw [nonce_run_eq_range']
    exact List.length_range' ..
  · intro v
    rw [nonce_run_eq_range']
    exact List.mem_range'_1

/-- Concrete instance of `C1_nonce_monotonicity` at `base = 5`, `N = 3`. -/
theorem C1_nonce_monotonicity_witness :
    nonce_run 5 3 = List.range' 5 3 ∧
    (nonce_run 5 3).Nodup ∧
    (nonce_run 5 3).length = 3 ∧
    (∀ v, v ∈ nonce_run 5 3 ↔ 5 ≤ v ∧ v < 5 + 3) :=
  C1_nonce_monotonicity 5 3

/-!
## TradeExecutor — `src/core/trade_executor.py`

External reads (token balances, router quotes, gas price, gas estimates)
are fields of an environment `Env`; the per-process mutable state — the
NonceSequencer counter and the transactions actually broadcast — is
threaded explicitly as `ExecSt`.  The error strings abbreviate the
source's `RuntimeError` messages.
-/

/-- The chain/configuration environment a single executor call runs in. -/
structure Env where
  /-- `token.functions.balanceOf(account).call()` for the source token. -/
  balance : ℤ
  /-- `signal.get("position_pct", env.MAX_TRADE_PERCENT)` (a percentage). -/
  position_pct : ℚ
  /-- `token.functions.allowance(account, router).call()`. -/
  allowance : ℤ
  /-- `router.functions.getAmountsOut(amount_in, path).call()[-1]`. -/
  expected_out : ℤ
  /-- `w3.eth.gas_price` (wei). -/
  gas_price_wei : ℤ
  /-- `w3.eth.estimate_gas(txn)`. -/
  gas_estimate : ℤ
  /-- `env.SLIPPAGE_TOLERANCE` (a percentage, e.g. `0.2`). -/
  slippage_tolerance : ℚ
  /-- `env.MAX_GAS_PRICE_GWEI`. -/
  max_gas_price_gwei : ℚ
  /-- `env.MAX_GAS_FEE_BNB`. -/
  max_gas_fee_bnb : ℚ
  /-- `self.dec_btcb` (decimals read from the BTCB contract). -/
  dec_btcb : ℕ
  /-- `self.dec_usdt` (decimals read from the USDT contract). -/
  dec_usdt : ℕ
  /-- the hash `w3.eth.send_raw_transaction` returns for the swap. -/
  tx_hash : String
deriving Repr, DecidableEq

/-- A `router.swapExactTokensForTokens` transaction actually signed and
broadcast, with the nonce and gas price it was built with. -/
structure SwapCall where
  amount_in : ℤ
  min_out : ℤ
  nonce : ℕ
  gas_price : ℤ
deriving Repr, DecidableEq

/-- The executor-side mutable state: the NonceSequencer counter, the swap
transactions broadcast, and the number of approval transactions
broadcast. -/
structure ExecSt where
  nonce : ℕ
  swaps : List SwapCall
  approvals : ℕ
deriving Repr, DecidableEq

/-- `TradeExecutor._from_wei`: `amount_wei / (10 ** decimals)`. -/
def from_wei (amount_wei : ℤ) (decimals : ℕ) : ℚ :=
  (amount_wei : ℚ) / 10 ^ decimals

/-- `w3.from_wei(x, 'gwei')`. -/
def wei_to_gwei (wei : ℤ) : ℚ :=
  (wei : ℚ) / 10 ^ 9

/-- `TradeExecutor._build_tx_params`: checks the gas-price ceiling, then
draws the next nonce and picks the transaction gas price.  Raises
`"Gas price too high"` (abbreviating the source message) before touching
the nonce when `current_gwei > MAX_GAS_PRICE_GWEI`. -/
def build_tx_params (e : Env) (st : ExecSt) : Except String (ℕ × ℤ) × ExecSt :=
  let current_gwei := wei_to_gwei e.gas_price_wei
  if e.max_gas_price_gwei < current_gwei then
    (.error "Gas price too high", st)
  else
    (.ok (st.nonce,
        if e.max_gas_price_gwei < current_gwei then pyInt (e.max_gas_price_gwei * 10 ^ 9)
        else e.gas_price_wei),
      { st with nonce := st.nonce + 1 })

/-- `TradeExecutor._ensure_allowance`: returns at once when the router's
allowance already covers `needed`; otherwise builds (consuming a nonce via
`_build_tx_params`), signs and broadcasts an approval transaction. -/
def ensure_allowance (e : Env) (needed : ℤ) (st : ExecSt) : Except String Unit × ExecSt :=
  if needed ≤ e.allowance then (.ok (), st)
  else
    match build_tx_params e st with
    | (.error m, st1) => (.error m, st1)
    | (.ok _, st1) => (.ok (), { st1 with approvals := st1.approvals + 1 })

/-- `_buy_btcb`'s `min_out = int(expected_out * (1 - env.SLIPPAGE_TOLERANCE / 100))`. -/
def buy_min_out (expected_out : ℤ) (slippage_tolerance : ℚ) : ℤ :=
  pyInt ((expected_out : ℚ) * (1 - slippage_tolerance / 100))

/-- `_sell_btcb`'s `min_out = int(expected_out * (1 - env.SLIPPAGE_TOLERANCE / 100))`. -/
def sell_min_out (expected_out : ℤ) (slippage_tolerance : ℚ) : ℤ :=
  pyInt ((expected_out : ℚ) * (1 - slippage_tolerance / 100))

/-- `TradeExecutor._buy_btcb`: zero-balance guard, sizing, allowance,
router quote and `min_out`, `_build_tx_params` (gas-price ceiling plus
nonce draw), gas estimation, gas-fee ceiling, sign and broadcast.
Returns `(tx_hash.hex(), from_wei min_out, from_wei expected_out)`. -/
def buy_btcb (e : Env) (st : ExecSt) : Except String (String × ℚ × ℚ) × ExecSt :=
  if e.balance = 0 then (.error "USDT balance is zero - cannot buy", st)
  else
    let amount_in := pyInt ((e.balance : ℚ) * (e.position_pct / 100))
    match ensure_allowance e amount_in st with
    | (.error m, st1) => (.error m, st1)
    | (.ok _, st1) =>
      let expected_out := e.expected_out
      let min_out := buy_min_out expected_out e.slippage_tolerance
      match build_tx_params e st1 with
      | (.error m, st2) => (.error m, st2)
      | (.ok (nonce, gasPrice), st2) =>
        let fee_bnb := from_wei (gasPrice * e.gas_estimate) 18
        if e.max_gas_fee_bnb < fee_bnb then (.error "Gas fee exceeds max", st2)
        else
          (.ok (e.tx_hash, from_wei min_out e.dec_btcb, from_wei expected_out e.dec_btcb),
            { st2 with swaps := st2.swaps ++ [⟨amount_in, min_out, nonce, gasPrice⟩] })

/-- `TradeExecutor._sell_btcb`: the sell mirror of `buy_btcb`.  Returns
`(tx_hash.hex(), from_wei min_out, amount_in, from_wei expected_out)`. -/
def sell_btcb (e : Env) (st : ExecSt) : Except String (String × ℚ × ℤ × ℚ) × ExecSt :=
  if e.balance = 0 then (.error "BTCB balance is zero - cannot sell", st)
  else
    let amount_in := pyInt ((e.balance : ℚ) * (e.position_pct / 100))
    match ensure_allowance e amount_in st with
    | (.error m, st1) => (.error m, st1)
    | (.ok _, st1) =>
      let expected_out := e.expected_out
      let min_out := sell_min_out expected_out e.slippage_tolerance
      match build_tx_params e st1 with
      | (.error m, st2) => (.error m, st2)
      | (.ok (nonce, gasPrice), st2) =>
        let fee_bnb := from_wei (gasPrice * e.gas_estimate) 18
        if e.max_gas_fee_bnb < fee_bnb then (.error "Gas fee exceeds max", st2)
        else
          (.ok (e.tx_hash, from_wei min_out e.dec_usdt, amount_in, from_wei expected_out e.dec_usdt),
            { st2 with swaps := st2.swaps ++ [⟨amount_in, min_out, nonce, gasPrice⟩] })

/-- `TradeExecutor.sell_exact(amount_wbtc, current_price)` (used by the
take-profit watcher): converts the quantity to wei, ensures allowance,
quotes the direct route, computes the slippage `min_out`, calls
`_build_tx_params`, estimates gas — with **no** `MAX_GAS_FEE_BNB`
comparison — then signs, broadcasts and logs the trade. -/
def sell_exact (e : Env) (amount_wbtc : ℚ) (current_price : ℚ) (st : ExecSt) :
    Except String String × ExecSt :=
  let amt_wei := pyInt (amount_wbtc * 10 ^ e.dec_btcb)
  match ensure_allowance e amt_wei st with
  | (.error m, st1) => (.error m, st1)
  | (.ok _, st1) =>
    let expected_out := e.expected_out
    let min_out := pyInt ((expected_out : ℚ) * (1 - e.slippage_tolerance / 100))
    match build_tx_params e st1 with
    | (.error m, st2) => (.error m, st2)
    | (.ok (nonce, gasPrice), st2) =>
      let _profit_pct := (from_wei expected_out e.dec_usdt - amount_wbtc * current_price)
          / (amount_wbtc * current_price) * 100
      (.ok e.tx_hash,
        { st2 with swaps := st2.swaps ++ [⟨amt_wei, min_out, nonce, gasPrice⟩] })

/-- What a `TradeExecutor.execute(signal)` call leaves behind, from its
caller's point of view: the value returned (the Python method has no
`return` statement on any path, so it is always `None`, modelled `none`),
the message recorded via `log_error` if an exception was caught, whether a
Trade row was written, whether a Position was created, and the final
executor state. -/
structure ExecOutcome where
  returned : Option (String × ℚ)
  logged_error : Option String
  trade_logged : Bool
  position_created : Bool
  st : ExecSt
deriving Repr, DecidableEq

/-- `TradeExecutor.execute`: dispatches on `signal["action"]`, runs the
buy or sell path inside `try/except Exception`, logging any exception via
`log_error` and falling through; no path returns a value. -/
def execute (e : Env) (action : String) (st : ExecSt) : ExecOutcome :=
  if action ≠ "buy" ∧ action ≠ "sell" then
    ⟨none, none, false, false, st⟩
  else if action = "buy" then
    match buy_btcb e st with
    | (.ok _, st1) => ⟨none, none, true, true, st1⟩
    | (.error m, st1) => ⟨none, some m, false, false, st1⟩
  else
    match sell_btcb e st with
    | (.ok _, st1) => ⟨none, none, true, false, st1⟩
    | (.error m, st1) => ⟨none, some m, false, false, st1⟩

/-- **C2** — For every quoted `expected_out` and configured slippage
tolerance, both the buy and the sell path compute
`min_out = floor(expected_out * (1 - t))`, where `t = SLIPPAGE_TOLERANCE / 100`
is the configured tolerance as a fraction (the configuration stores a
percentage, e.g. `0.2` for the spec's `0.2% -> x 0.998`), and the computed
`min_out` never exceeds `expected_out`. -/
theorem C2_slippage_bound (expected_out : ℤ) (tol : ℚ)
    (he : 0 ≤ expected_out) (ht0 : 0 ≤ tol) (ht1 : tol ≤ 100) :
    buy_min_out expected_out tol = ⌊(expected_out : ℚ) * (1 - tol / 100)⌋ ∧
    sell_min_out expected_out tol = ⌊(expected_out : ℚ) * (1 - tol / 100)⌋ ∧
    buy_min_out expected_out tol ≤ expected_out ∧
    sell_min_out expected_out tol ≤ expected_out := by
  have he' : (0 : ℚ) ≤ (expected_out : ℚ) := by exact_mod_cast he
  have hfrac0 : (0 : ℚ) ≤ 1 - tol / 100 := by linarith
  have hq0 : (0 : ℚ) ≤ (expected_out : ℚ) * (1 - tol / 100) := mul_nonneg he' hfrac0
  have hfl : buy_min_out expected_out tol = ⌊(expected_out : ℚ) * (1 - tol / 100)⌋ :=
    pyInt_of_nonneg _ hq0
  have hfl2 : sell_min_out expected_out tol = ⌊(expected_out : ℚ) * (1 - tol / 100)⌋ :=
    pyInt_of_nonneg _ hq0
  have hle : (expected_out : ℚ) * (1 - tol / 100) ≤ (expected_out : ℚ) :=
    mul_le_of_le_one_right he' (by linarith)
  have hbound : ⌊(expected_out : ℚ) * (1 - tol / 100)⌋ ≤ expected_out := by
    have h2 := Int.floor_le_floor hle
    simpa using h2
  exact ⟨hfl, hfl2, hfl ▸ hbound, hfl2 ▸ hbound⟩

/-- Concrete instance of `C2_slippage_bound` at `expected_out = 1000`,
`SLIPPAGE_TOLERANCE = 0.2`: `min_out = 998` on both paths. -/
theorem C2_slippage_bound_witness :
    (0 : ℤ) ≤ 1000 ∧ (0 : ℚ) ≤ 2 / 10 ∧ (2 / 10 : ℚ) ≤ 100 ∧
    (buy_min_out 1000 (2 / 10) = ⌊(1000 : ℚ) * (1 - (2 / 10) / 100)⌋ ∧
      sell_min_out 1000 (2 / 10) = ⌊(1000 : ℚ) * (1 - (2 / 10) / 100)⌋ ∧
      buy_min_out 1000 (2 / 10) ≤ 1000 ∧
      sell_min_out 1000 (2 / 10) ≤ 1000) :=
  ⟨by norm_num, by norm_num, by norm_num,
    C2_slippage_bound 1000 (2 / 10) (by norm_num) (by norm_num) (by norm_num)⟩

/-- An environment in which a buy succeeds: positive balance, ample
allowance, gas price 1 gwei (ceiling 5), fee `10^14 / 10^18 = 0.0001` BNB
(ceiling 0.003). -/
def okEnv : Env :=
  { balance := 1000
    position_pct := 10
    allowance := 10 ^ 30
    expected_out := 1000
    gas_price_wei := 10 ^ 9
    gas_estimate := 100000
    slippage_tolerance := 0
    max_gas_price_gwei := 5
    max_gas_fee_bnb := 3 / 1000
    dec_btcb := 18
    dec_usdt := 18
    tx_hash := "0xabc" }

/-- `okEnv` with a zero source-token balance. -/
def zeroBalEnv : Env :=
  { okEnv with balance := 0 }

/-- `okEnv`, but the estimated fee `5 * 10^9 * 10^12 / 10^18 = 5000` BNB
exceeds the 0.003 ceiling while the gas price (5 gwei) does not exceed the
5 gwei ceiling.  Allowance `10^18` covers both the regular sell's
`amount_in = 100` and `sell_exact 1`'s `10^18` wei. -/
def feeEnv : Env :=
  { okEnv with allowance := 10 ^ 18, gas_price_wei := 5 * 10 ^ 9, gas_estimate := 10 ^ 12 }

/-- **C3, counterexample** — on a fully successful buy, `execute` does not
return the pair `(tx_hash, filled_amount)`: the Python method has no
`return` statement on any path, so the caller receives `None` even though
the trade was executed and logged. -/
theorem C3_counterexample :
    (execute okEnv "buy" ⟨7, [], 0⟩).trade_logged = true ∧
    (execute okEnv "buy" ⟨7, [], 0⟩).returned = none := by
  norm_num [execute, buy_btcb, ensure_allowance, build_tx_params, buy_min_out,
    pyInt, from_wei, wei_to_gwei, okEnv]

/-- `execute` returns `None` on every path: unknown action, successful
buy or sell, and caught exception alike. -/
theorem execute_returned_none (e : Env) (action : String) (st : ExecSt) :
    (execute e action st).returned = none := by
  unfold execute
  split
  · rfl
  · split
    · rcases hb : buy_btcb e st with ⟨r, st1⟩
      cases r <;> simp [hb]
    · rcases hs : sell_btcb e st with ⟨r, st1⟩
      cases r <;> simp [hs]

/-- **C3, amended** — `execute(signal)` returns `None` to its caller in
every case, success included; the guard failures (zero source balance,
gas price over the gwei ceiling, estimated fee over the BNB ceiling) are
raised inside the buy/sell path as `RuntimeError`s, caught by `execute`'s
blanket handler and recorded via `log_error` instead of being surfaced;
no route-unavailability guard exists in the code. -/
theorem C3_execute_error_channel (e : Env) (action : String) (st : ExecSt) :
    (execute e action st).returned = none ∧
    (e.balance = 0 →
      (execute e "buy" st).logged_error = some "USDT balance is zero - cannot buy") ∧
    (e.balance = 0 →
      (execute e "sell" st).logged_error = some "BTCB balance is zero - cannot sell") ∧
    (e.balance ≠ 0 → e.max_gas_price_gwei < wei_to_gwei e.gas_price_wei →
      (execute e "buy" st).logged_error = some "Gas price too high") ∧
    (e.balance ≠ 0 → ¬ e.max_gas_price_gwei < wei_to_gwei e.gas_price_wei →
      pyInt ((e.balance : ℚ) * (e.position_pct / 100)) ≤ e.allowance →
      e.max_gas_fee_bnb < from_wei (e.gas_price_wei * e.gas_estimate) 18 →
      (execute e "buy" st).logged_error = some "Gas fee exceeds max") := by
  refine ⟨execute_returned_none e action st, ?_, ?_, ?_, ?_⟩
  · intro h
    simp [execute, buy_btcb, h]
  · intro h
    simp [execute, sell_btcb, h]
  · intro hb hg
    by_cases hA : pyInt ((e.balance : ℚ) * (e.position_pct / 100)) ≤ e.allowance
    · simp [execute, buy_btcb, ensure_allowance, build_tx_params, hb, hA, hg]
    · simp [execute, buy_btcb, ensure_allowance, build_tx_params, hb, hA, hg]
  · intro hb hg hA hf
    simp [execute, buy_btcb, ensure_allowance, build_tx_params, hb, hg, hA, hf]

/-- Concrete instances of `C3_execute_error_channel`: the zero-balance
buy logs the balance error, and the over-fee buy logs the fee error,
while both return `None`. -/
theorem C3_execute_error_channel_witness :
    (execute zeroBalEnv "buy" ⟨7, [], 0⟩).returned = none ∧
    (execute zeroBalEnv "buy" ⟨7, [], 0⟩).logged_error =
      some "USDT balance is zero - cannot buy" ∧
    (execute feeEnv "buy" ⟨7, [], 0⟩).logged_error = some "Gas fee exceeds max" :=
  ⟨(C3_execute_error_channel zeroBalEnv "buy" ⟨7, [], 0⟩).1,
    (C3_execute_error_channel zeroBalEnv "buy" ⟨7, [], 0⟩).2.1 rfl,
    (C3_execute_error_channel feeEnv "buy" ⟨7, [], 0⟩).2.2.2.2
      (by norm_num [feeEnv, okEnv])
      (by norm_num [feeEnv, okEnv, wei_to_gwei])
      (by norm_num [feeEnv, okEnv, pyInt])
      (by norm_num [feeEnv, okEnv, from_wei])⟩

/-- **C4, counterexample** — a buy rejected by the gas-*fee* guard has
already drawn a nonce: with the fee over the ceiling (gas price itself
under the ceiling), `_buy_btcb` raises the fee rejection and the
NonceSequencer counter has advanced from 7 to 8, so the rejection does
not consume zero nonces. -/
theorem C4_counterexample :
    (buy_btcb feeEnv ⟨7, [], 0⟩).1 = .error "Gas fee exceeds max" ∧
    ¬ (buy_btcb feeEnv ⟨7, [], 0⟩).2.nonce = 7 := by
  norm_num [buy_btcb, ensure_allowance, build_tx_params, buy_min_out,
    pyInt, from_wei, wei_to_gwei, feeEnv, okEnv]

/-- **C4, amended** — a gas-*price* ceiling rejection happens in
`_build_tx_params` before the nonce is drawn and consumes zero nonces
(the executor state is returned unchanged); a gas-*fee* ceiling rejection
happens after `_build_tx_params` has drawn the swap's nonce — though
still before signing, so nothing is broadcast — and consumes exactly one
nonce. -/
theorem C4_gas_guard_nonce (e : Env) (st : ExecSt) (hb : e.balance ≠ 0) :
    (e.max_gas_price_gwei < wei_to_gwei e.gas_price_wei →
      buy_btcb e st = (.error "Gas price too high", st)) ∧
    (¬ e.max_gas_price_gwei < wei_to_gwei e.gas_price_wei →
      pyInt ((e.balance : ℚ) * (e.position_pct / 100)) ≤ e.allowance →
      e.max_gas_fee_bnb < from_wei (e.gas_price_wei * e.gas_estimate) 18 →
      buy_btcb e st = (.error "Gas fee exceeds max", { st with nonce := st.nonce + 1 })) := by
  constructor
  · intro hg
    by_cases hA : pyInt ((e.balance : ℚ) * (e.position_pct / 100)) ≤ e.allowance
    · simp [buy_btcb, ensure_allowance, build_tx_params, hb, hA, hg]
    · simp [buy_btcb, ensure_allowance, build_tx_params, hb, hA, hg]
  · intro hg hA hf
    simp [buy_btcb, ensure_allowance, build_tx_params, hb, hg, hA, hf]

/-- Concrete instance of `C4_gas_guard_nonce`: in `feeEnv` the fee guard
fires and the state ends at nonce 8 with nothing broadcast. -/
theorem C4_gas_guard_nonce_witness :
    feeEnv.balance ≠ 0 ∧
    buy_btcb feeEnv ⟨7, [], 0⟩ =
      (.error "Gas fee exceeds max", { nonce := 8, swaps := [], approvals := 0 }) :=
  ⟨by norm_num [feeEnv, okEnv],
    (C4_gas_guard_nonce feeEnv ⟨7, [], 0⟩ (by norm_num [feeEnv, okEnv])).2
      (by norm_num [feeEnv, okEnv, wei_to_gwei])
      (by norm_num [feeEnv, okEnv, pyInt])
      (by norm_num [feeEnv, okEnv, from_wei])⟩

/-- **C9, counterexample** — `sell_exact` (the take-profit exit path)
does not apply the absolute gas-fee ceiling: in an environment whose
estimated fee (5000 BNB) is far beyond `MAX_GAS_FEE_BNB = 0.003`, the
regular sell path rejects with the fee error, yet `sell_exact` signs and
broadcasts successfully. -/
theorem C9_counterexample :
    feeEnv.max_gas_fee_bnb < from_wei (feeEnv.gas_price_wei * feeEnv.gas_estimate) 18 ∧
    (sell_btcb feeEnv ⟨7, [], 0⟩).1 = .error "Gas fee exceeds max" ∧
    (sell_exact feeEnv 1 60000 ⟨7, [], 0⟩).1 = .ok "0xabc" := by
  refine ⟨by norm_num [feeEnv, okEnv, from_wei], ?_, ?_⟩
  · norm_num [sell_btcb, ensure_allowance, build_tx_params, sell_min_out,
      pyInt, from_wei, wei_to_gwei, feeEnv, okEnv]
  · norm_num [sell_exact, ensure_allowance, build_tx_params,
      pyInt, from_wei, wei_to_gwei, feeEnv, okEnv]

/-- **C9, amended** — every take-profit ladder exit goes through
`TradeExecutor.sell_exact`, which swaps exactly the computed quantity
(`int(amount * 10 ** dec_btcb)` wei, not the full position) with the
slippage-bounded minimum output and the gas-price ceiling of the regular
sell path; unlike the regular sell path it performs no absolute gas-fee
ceiling check. -/
theorem C9_tp_exit_guards (e : Env) (q p : ℚ) (st : ExecSt)
    (hA : pyInt (q * 10 ^ e.dec_btcb) ≤ e.allowance) :
    (¬ e.max_gas_price_gwei < wei_to_gwei e.gas_price_wei →
      sell_exact e q p st =
        (.ok e.tx_hash,
          { st with nonce := st.nonce + 1
                    swaps := st.swaps ++
                      [⟨pyInt (q * 10 ^ e.dec_btcb),
                        pyInt ((e.expected_out : ℚ) * (1 - e.slippage_tolerance / 100)),
                        st.nonce, e.gas_price_wei⟩] })) ∧
    (e.max_gas_price_gwei < wei_to_gwei e.gas_price_wei →
      sell_exact e q p st = (.error "Gas price too high", st)) := by
  constructor
  · intro hg
    simp [sell_exact, ensure_allowance, build_tx_params, hA, hg]
  · intro hg
    simp [sell_exact, ensure_allowance, build_tx_params, hA, hg]

/-- Concrete instance of `C9_tp_exit_guards`: in `okEnv`, a `sell_exact`
of 2 token units broadcasts one swap of exactly `2 * 10^18` wei with
`min_out = expected_out` (zero slippage tolerance) on nonce 7. -/
theorem C9_tp_exit_guards_witness :
    pyInt ((2 : ℚ) * 10 ^ okEnv.dec_btcb) ≤ okEnv.allowance ∧
    sell_exact okEnv 2 60000 ⟨7, [], 0⟩ =
      (.ok okEnv.tx_hash,
        { nonce := 8
          swaps := [⟨pyInt ((2 : ℚ) * 10 ^ okEnv.dec_btcb),
            pyInt ((okEnv.expected_out : ℚ) * (1 - okEnv.slippage_tolerance / 100)),
            7, okEnv.gas_price_wei⟩]
          approvals := 0 }) :=
  ⟨by norm_num [okEnv, pyInt],
    (C9_tp_exit_guards okEnv 2 60000 ⟨7, [], 0⟩ (by norm_num [okEnv, pyInt])).1
      (by norm_num [okEnv, wei_to_gwei])⟩

/-!
## TransactionLifecycleMonitor — `src/core/tx_bumper.py`, `bump_loop`,
and `src/db/models.py` (`pending_rows`, `mark_mined`, `update_bump`)

One iteration of the loop body for a single pending row is embedded as
`bump_step`.  The chain's answers for that row on that tick — the receipt
(its `status` field when one exists), the original transaction fetched by
`get_transaction` (its nonce and gasPrice), the hash the rebroadcast
returns, and the current time — form a `ChainView`.
-/

/-- The bump-related configuration (`env.TX_TIMEOUT_SEC`,
`env.GAS_BUMP_FACTOR`, `env.MAX_BUMPS`). -/
structure BumpCfg where
  tx_timeout_sec : ℚ
  gas_bump_factor : ℚ
  max_bumps : ℕ
deriving Repr, DecidableEq

/-- A `pending_txs` row. -/
structure PendingRow where
  tx_hash : String
  nonce : ℕ
  gas_price : ℤ
  sent_at : ℚ
  bumps : ℕ
  status : String
deriving Repr, DecidableEq

/-- What the chain returns for one row on one tick. -/
structure ChainView where
  /-- `get_transaction_receipt(tx_hash).status`, `none` when no receipt. -/
  receipt : Option ℕ
  /-- `get_transaction(tx_hash).nonce` — the original transaction's own nonce. -/
  raw_nonce : ℕ
  /-- `get_transaction(tx_hash).gasPrice`. -/
  raw_gas_price : ℤ
  /-- the hash `send_raw_transaction` returns for the re-signed transaction. -/
  new_hash : String
  /-- `datetime.now(timezone.utc)` as seconds. -/
  now : ℚ
deriving Repr, DecidableEq

/-- A transaction rebroadcast by the monitor: the nonce and gas price it
was re-signed with. -/
structure SentTx where
  nonce : ℕ
  gas_price : ℤ
deriving Repr, DecidableEq

/-- One `bump_loop` iteration for one pending row: if a receipt exists
with `status == 1`, `mark_mined` (sets `status='mined'`); otherwise, if
`age > TX_TIMEOUT_SEC` and `bumps < MAX_BUMPS`, re-sign the fetched
transaction unchanged except for
`gasPrice = int(raw.gasPrice * GAS_BUMP_FACTOR)`, rebroadcast it, and
`update_bump` (replaces `tx_hash` and `gas_price`, sets `bumps + 1`,
resets `sent_at = NOW()`); else leave the row untouched.  The second
component is the rebroadcast transaction, if any. -/
def bump_step (cfg : BumpCfg) (c : ChainView) (row : PendingRow) :
    PendingRow × Option SentTx :=
  if c.receipt = some 1 then
    ({ row with status := "mined" }, none)
  else
    let age := c.now - row.sent_at
    if cfg.tx_timeout_sec < age ∧ row.bumps < cfg.max_bumps then
      let new_gas := pyInt ((c.raw_gas_price : ℚ) * cfg.gas_bump_factor)
      ({ row with tx_hash := c.new_hash, gas_price := new_gas,
                  bumps := row.bumps + 1, sent_at := c.now },
        some ⟨c.raw_nonce, new_gas⟩)
    else (row, none)

/-- Iterated `bump_step` over the chain views of successive ticks,
collecting every transaction the monitor rebroadcast. -/
def bump_trace (cfg : BumpCfg) : List ChainView → PendingRow → PendingRow × List SentTx
  | [], row => (row, [])
  | c :: cs, row =>
    let r := bump_step cfg c row
    let rest := bump_trace cfg cs r.1
    (rest.1, r.2.toList ++ rest.2)

/-- Once the bump budget is spent, ticks that never see a success receipt
leave the row exactly as it is and broadcast nothing. -/
theorem bump_trace_budget_exhausted (cfg : BumpCfg) :
    ∀ (views : List ChainView) (row : PendingRow),
      cfg.max_bumps ≤ row.bumps → (∀ v ∈ views, v.receipt ≠ some 1) →
      bump_trace cfg views row = (row, [])
  | [], row, _, _ => rfl
  | c :: cs, row, hmax, hrec => by
    have hc : c.receipt ≠ some 1 := hrec c (by simp)
    have hstep : bump_step cfg c row = (row, none) := by
      simp only [bump_step, if_neg hc]
      rw [if_neg]
      rintro ⟨-, hlt⟩
      exact absurd hmax (by omega)
    have hrest := bump_trace_budget_exhausted cfg cs row hmax
      (fun v hv => hrec v (by simp [hv]))
    simp [bump_trace, hstep, hrest]

/-- **C5** — While `bump_count < MAX_BUMPS`, a pending transaction whose
age exceeds `TX_TIMEOUT_SEC` (and that has no success receipt) is
rebroadcast with the identical nonce and with gas price
`int(old * GAS_BUMP_FACTOR)` — gas price 5 at factor 1.2 yields 6 — and
the row's hash and gas price are replaced, `bumps` is incremented, and
`sent_at` is reset to now, all other fields (nonce, status) unchanged;
once `bumps` reaches `MAX_BUMPS`, no tick that does not confirm the
transaction ever rebroadcasts again and the row — its `'pending'` status
included — stays exactly as it is. -/
theorem C5_bump_replace_by_fee (cfg : BumpCfg) (c : ChainView) (row : PendingRow)
    (views : List ChainView) (hr : c.receipt ≠ some 1) :
    (cfg.tx_timeout_sec < c.now - row.sent_at → row.bumps < cfg.max_bumps →
      c.raw_nonce = row.nonce →
      bump_step cfg c row =
        ({ row with tx_hash := c.new_hash,
                    gas_price := pyInt ((c.raw_gas_price : ℚ) * cfg.gas_bump_factor),
                    bumps := row.bumps + 1, sent_at := c.now },
          some ⟨row.nonce, pyInt ((c.raw_gas_price : ℚ) * cfg.gas_bump_factor)⟩)) ∧
    (c.raw_gas_price = 5 → cfg.gas_bump_factor = 6 / 5 →
      pyInt ((c.raw_gas_price : ℚ) * cfg.gas_bump_factor) = 6) ∧
    (cfg.max_bumps ≤ row.bumps → (∀ v ∈ views, v.receipt ≠ some 1) →
      bump_trace cfg views row = (row, [])) := by
  refine ⟨?_, ?_, bump_trace_budget_exhausted cfg views row⟩
  · intro hage hb hn
    simp [bump_step, if_neg hr, hage, hb, hn]
  · intro h5 hf
    rw [h5, hf]
    norm_num [pyInt]

/-- Concrete instance of `C5_bump_replace_by_fee`: a row at gas price 5,
0 bumps, sent at time 0 and observed at time 200 with timeout 120,
factor 1.2, max 3 bumps and no receipt is rebumped to gas price 6 on the
same nonce; the same row with 3 bumps is never touched again over three
further unconfirmed ticks. -/
theorem C5_bump_replace_by_fee_witness :
    (ChainView.mk none 7 5 "0xnew" 200).receipt ≠ some 1 ∧
    bump_step ⟨120, 6 / 5, 3⟩ ⟨none, 7, 5, "0xnew", 200⟩ ⟨"0xold", 7, 5, 0, 0, "pending"⟩ =
      (⟨"0xnew", 7, 6, 200, 1, "pending"⟩, some ⟨7, 6⟩) ∧
    bump_trace ⟨120, 6 / 5, 3⟩
        [⟨none, 7, 5, "0xnew", 200⟩, ⟨some 0, 7, 5, "0xnew", 400⟩, ⟨none, 7, 5, "0xnew", 600⟩]
        ⟨"0xold", 7, 5, 0, 3, "pending"⟩ =
      (⟨"0xold", 7, 5, 0, 3, "pending"⟩, []) := by
  have h := C5_bump_replace_by_fee ⟨120, 6 / 5, 3⟩ ⟨none, 7, 5, "0xnew", 200⟩
    ⟨"0xold", 7, 5, 0, 0, "pending"⟩
    [⟨none, 7, 5, "0xnew", 200⟩, ⟨some 0, 7, 5, "0xnew", 400⟩, ⟨none, 7, 5, "0xnew", 600⟩]
    (by simp)
  have h6 := h.2.1 rfl rfl
  have hstep := h.1 (by norm_num) (by norm_num) rfl
  refine ⟨by simp, ?_, ?_⟩
  · rw [hstep, h6]
  · have hx := C5_bump_replace_by_fee ⟨120, 6 / 5, 3⟩ ⟨none, 7, 5, "0xnew", 200⟩
      ⟨"0xold", 7, 5, 0, 3, "pending"⟩
      [⟨none, 7, 5, "0xnew", 200⟩, ⟨some 0, 7, 5, "0xnew", 400⟩, ⟨none, 7, 5, "0xnew", 600⟩]
      (by simp)
    exact hx.2.2 (by norm_num) (by intro v hv; fin_cases hv <;> simp)

/-- Without a success receipt, one monitor tick never changes a row's
`status` field. -/
theorem bump_step_status_of_not_mined (cfg : BumpCfg) (c : ChainView) (row : PendingRow)
    (hc : c.receipt ≠ some 1) : (bump_step cfg c row).1.status = row.status := by
  rw [bump_step, if_neg hc]
  by_cases hcond : cfg.tx_timeout_sec < c.now - row.sent_at ∧ row.bumps < cfg.max_bumps
  · simp [hcond]
  · simp [hcond]

/-- **C10** — the monitor marks a pending row mined exactly when a
receipt exists with `status == 1`; on a reverted inclusion
(`receipt.status == 0`) the row keeps `status='pending'`, and it is
re-signed and rebroadcast on the same nonce whenever the timeout has
elapsed with bump budget remaining, while an exhausted budget stops all
resubmission. -/
theorem C10_reverted_not_mined (cfg : BumpCfg) (c : ChainView) (row : PendingRow)
    (hp : row.status = "pending") :
    ((bump_step cfg c row).1.status = "mined" ↔ c.receipt = some 1) ∧
    (c.receipt = some 0 →
      (bump_step cfg c row).1.status = "pending" ∧
      (cfg.tx_timeout_sec < c.now - row.sent_at → row.bumps < cfg.max_bumps →
        (bump_step cfg c row).2 =
          some ⟨c.raw_nonce, pyInt ((c.raw_gas_price : ℚ) * cfg.gas_bump_factor)⟩ ∧
        (bump_step cfg c row).1.nonce = row.nonce) ∧
      (cfg.max_bumps ≤ row.bumps → (bump_step cfg c row).2 = none)) := by
  constructor
  · constructor
    · intro hm
      by_contra hc
      rw [bump_step_status_of_not_mined cfg c row hc, hp] at hm
      exact absurd hm (by decide)
    · intro hc
      simp [bump_step, hc]
  · intro hc
    have hc1 : c.receipt ≠ some 1 := by simp [hc]
    refine ⟨?_, ?_, ?_⟩
    · rw [bump_step_status_of_not_mined cfg c row hc1, hp]
    · intro hage hb
      simp [bump_step, if_neg hc1, hage, hb]
    · intro hmax
      rw [bump_step, if_neg hc1]
      rw [if_neg]
      rintro ⟨-, hlt⟩
      exact absurd hmax (by omega)

/-- Concrete instance of `C10_reverted_not_mined`: a reverted receipt
(`status 0`) on a timed-out row with bump budget left keeps the row
pending and rebumps it on its own nonce. -/
theorem C10_reverted_not_mined_witness :
    ("pending" : String) = "pending" ∧
    (bump_step ⟨120, 6 / 5, 3⟩ ⟨some 0, 7, 5, "0xnew", 200⟩
        ⟨"0xold", 7, 5, 0, 1, "pending"⟩).1.status = "pending" ∧
    (bump_step ⟨120, 6 / 5, 3⟩ ⟨some 0, 7, 5, "0xnew", 200⟩
        ⟨"0xold", 7, 5, 0, 1, "pending"⟩).2 =
      some ⟨7, pyInt ((5 : ℚ) * (6 / 5))⟩ ∧
    ¬ (bump_step ⟨120, 6 / 5, 3⟩ ⟨some 0, 7, 5, "0xnew", 200⟩
        ⟨"0xold", 7, 5, 0, 1, "pending"⟩).1.status = "mined" := by
  have h := C10_reverted_not_mined ⟨120, 6 / 5, 3⟩ ⟨some 0, 7, 5, "0xnew", 200⟩
    ⟨"0xold", 7, 5, 0, 1, "pending"⟩ rfl
  have h0 := h.2 rfl
  refine ⟨rfl, h0.1, ((h0.2.1 (by norm_num) (by norm_num)).1), ?_⟩
  intro hm
  have := h.1.mp hm
  simp at this

/-!
## PositionManager — `src/core/tp_watcher.py`, `tp_loop`, and
`src/db/models.py` (`insert_position`, `update_position_qty`,
`delete_position`)

One `tp_loop` iteration for one position and one observed price is
`tp_step`; `none` models `delete_position`.  The thresholds `1.008`,
`1.015`, `1.03` and the `0.5` scale-out fraction are the source's float
literals, taken as exact rationals.
-/

/-- A `positions` row (the fields the take-profit ladder touches). -/
structure Position where
  side : String
  entry_price : ℚ
  qty_total : ℚ
  qty_left : ℚ
  tp1_hit : Bool
  tp2_hit : Bool
deriving Repr, DecidableEq

/-- `insert_position(side, entry_price, qty)`: `qty_total = qty_left = qty`,
both take-profit flags false. -/
def insert_position (side : String) (entry_price : ℚ) (qty : ℚ) : Position :=
  ⟨side, entry_price, qty, qty, false, false⟩

/-- One `tp_loop` iteration on one position at one observed price:
TP1 (`price >= entry * 1.008`, `tp1_hit` not yet set) sells half of
`qty_left` and latches `tp1_hit`; TP2 (`tp1_hit` set, `tp2_hit` not,
`price >= entry * 1.015`) sells half of the current `qty_left` and
latches `tp2_hit`; TP3 (`tp2_hit` set, `price >= entry * 1.03`) sells the
rest and deletes the position (`none`). -/
def tp_step (pos : Position) (price : ℚ) : Option Position :=
  let tp1 := pos.entry_price * (1008 / 1000)
  let tp2 := pos.entry_price * (1015 / 1000)
  let tp3 := pos.entry_price * (103 / 100)
  if pos.tp1_hit = false ∧ tp1 ≤ price then
    let sell_qty := pos.qty_left * (1 / 2)
    some { pos with qty_left := pos.qty_left - sell_qty, tp1_hit := true,
                    tp2_hit := pos.tp2_hit }
  else if pos.tp1_hit = true ∧ pos.tp2_hit = false ∧ tp2 ≤ price then
    let sell_qty := pos.qty_left * (1 / 2)
    some { pos with qty_left := pos.qty_left - sell_qty, tp1_hit := true,
                    tp2_hit := true }
  else if pos.tp2_hit = true ∧ tp3 ≤ price then
    none
  else
    some pos

/-- `tp_step` iterated over a price sequence; `none` once the position
has been deleted. -/
def tp_trace (pos : Position) : List ℚ → Option Position
  | [] => some pos
  | price :: rest =>
    match tp_step pos price with
    | none => none
    | some pos2 => tp_trace pos2 rest

/-- The Position invariant of the spec:
`0 ≤ qty_left ≤ qty_total` and `tp2_hit ⇒ tp1_hit`. -/
def PosInv (p : Position) : Prop :=
  0 ≤ p.qty_left ∧ p.qty_left ≤ p.qty_total ∧ (p.tp2_hit = true → p.tp1_hit = true)

/-- One ladder update preserves the Position invariant. -/
theorem tp_step_inv (p : Position) (price : ℚ) (hp : PosInv p) :
    ∀ p2, tp_step p price = some p2 → PosInv p2 := by
  intro p2 h
  obtain ⟨h0, h1, h2⟩ := hp
  simp only [tp_step] at h
  split_ifs at h with c1 c2 c3 <;> injection h with h <;> subst h
  · exact ⟨by linarith, by linarith, fun _ => rfl⟩
  · exact ⟨by linarith, by linarith, fun _ => rfl⟩
  · exact ⟨h0, h1, h2⟩

/-- The invariant holds along any ladder trace. -/
theorem tp_trace_inv (prices : List ℚ) :
    ∀ p, PosInv p → ∀ p2, tp_trace p prices = some p2 → PosInv p2 := by
  induction prices with
  | nil =>
    intro p hp p2 h
    injection h with h
    exact h ▸ hp
  | cons price rest ih =>
    intro p hp p2 h
    unfold tp_trace at h
    rcases hs : tp_step p price with _ | p1
    · simp [hs] at h
    · simp only [hs] at h
      exact ih p1 (tp_step_inv p price hp p1 hs) p2 h

/-- **C6** — creation, ladder updates and deletion all preserve
`0 ≤ qty_left ≤ qty_total` and `tp2_hit ⇒ tp1_hit`; the take-profit
flags are one-way latches (no update sets a true flag back to false);
and from any freshly created position, no sequence of ladder updates
reaches a state with `tp2_hit` true and `tp1_hit` false. -/
theorem C6_position_invariants (side : String) (entry qty : ℚ) (p : Position)
    (price : ℚ) (prices : List ℚ) :
    (0 ≤ qty → PosInv (insert_position side entry qty)) ∧
    (PosInv p → ∀ p2, tp_step p price = some p2 → PosInv p2) ∧
    (∀ p2, tp_step p price = some p2 →
      (p.tp1_hit = true → p2.tp1_hit = true) ∧ (p.tp2_hit = true → p2.tp2_hit = true)) ∧
    (0 ≤ qty → ∀ p2, tp_trace (insert_position side entry qty) prices = some p2 →
      ¬ (p2.tp2_hit = true ∧ p2.tp1_hit = false)) := by
  refine ⟨?_, tp_step_inv p price, ?_, ?_⟩
  · intro hq
    exact ⟨hq, le_refl _, by simp [insert_position]⟩
  · intro p2 h
    simp only [tp_step] at h
    split_ifs at h with c1 c2 c3 <;> injection h with h <;> subst h
    · exact ⟨fun hh => absurd hh (by simp [c1.1]), fun hh => hh⟩
    · exact ⟨fun _ => rfl, fun _ => rfl⟩
    · exact ⟨fun hh => hh, fun hh => hh⟩
  · intro hq p2 h
    have hinv : PosInv p2 :=
      tp_trace_inv prices (insert_position side entry qty)
        ⟨hq, le_refl _, by simp [insert_position]⟩ p2 h
    rintro ⟨h2, h1⟩
    rw [hinv.2.2 h2] at h1
    exact absurd h1 (by simp)

/-- Concrete instance of `C6_position_invariants`: a fresh position of 2
units at entry 100 satisfies the invariant; the trace over prices
`[101, 102, 104]` walks TP1, TP2 then TP3 (deletion), so every surviving
state satisfies the latch property vacuously or directly. -/
theorem C6_position_invariants_witness :
    (0 : ℚ) ≤ 2 ∧ PosInv (insert_position "long" 100 2) ∧
    (∀ p2, tp_trace (insert_position "long" 100 2) [101] = some p2 →
      ¬ (p2.tp2_hit = true ∧ p2.tp1_hit = false)) :=
  ⟨by norm_num,
    (C6_position_invariants "long" 100 2 (insert_position "long" 100 2) 0 []).1 (by norm_num),
    (C6_position_invariants "long" 100 2 (insert_position "long" 100 2) 0 [101]).2.2.2
      (by norm_num)⟩

/-!
## TrailingStopMonitor — `src/core/trade_executor.py`,
`TradeExecutor._monitor_trailing_stop`

`peak` starts at the entry price; each tick with an available price runs
`if current > peak: peak = current`.  Ticks whose price fetch returns
`None` leave the state untouched, so the observed prices are modelled as
the list of prices actually received.
-/

/-- One trailing-stop tick's peak update: `if current > peak: peak = current`. -/
def trailing_tick (peak : ℚ) (current : ℚ) : ℚ :=
  if peak < current then current else peak

/-- The peak after processing a list of observed prices, starting from
the entry price. -/
def peak_trace (entry : ℚ) (prices : List ℚ) : ℚ :=
  List.foldl trailing_tick entry prices

/-- The peak value at every tick: `entry`, then the peak after each
successive observed price. -/
def peak_history (entry : ℚ) : List ℚ → List ℚ
  | [] => [entry]
  | p :: ps => entry :: peak_history (trailing_tick entry p) ps

theorem le_trailing_tick_left (a b : ℚ) : a ≤ trailing_tick a b := by
  unfold trailing_tick
  split_ifs with h
  · linarith
  · exact le_refl a

theorem le_trailing_tick_right (a b : ℚ) : b ≤ trailing_tick a b := by
  unfold trailing_tick
  split_ifs with h
  · exact le_refl b
  · linarith

theorem trailing_tick_mem (a b : ℚ) : trailing_tick a b = a ∨ trailing_tick a b = b := by
  unfold trailing_tick
  split_ifs with h
  · exact Or.inr rfl
  · exact Or.inl rfl

theorem peak_history_head (entry : ℚ) (ps : List ℚ) :
    (peak_history entry ps).head? = some entry := by
  cases ps <;> rfl

theorem le_peak_trace (ps : List ℚ) :
    ∀ entry, entry ≤ peak_trace entry ps ∧ ∀ x ∈ ps, x ≤ peak_trace entry ps := by
  induction ps with
  | nil =>
    intro entry
    exact ⟨le_refl entry, by simp⟩
  | cons p ps ih =>
    intro entry
    have hstep : peak_trace entry (p :: ps) = peak_trace (trailing_tick entry p) ps := rfl
    constructor
    · rw [hstep]
      exact le_trans (le_trailing_tick_left entry p) (ih (trailing_tick entry p)).1
    · intro x hx
      rw [hstep]
      rcases List.mem_cons.mp hx with hx | hx
      · subst hx
        exact le_trans (le_trailing_tick_right entry x) (ih (trailing_tick entry x)).1
      · exact (ih (trailing_tick entry p)).2 x hx

theorem peak_trace_mem (ps : List ℚ) :
    ∀ entry, peak_trace entry ps ∈ entry :: ps := by
  induction ps with
  | nil =>
    intro entry
    simp [peak_trace]
  | cons p ps ih =>
    intro entry
    have hstep : peak_trace entry (p :: ps) = peak_trace (trailing_tick entry p) ps := rfl
    rw [hstep]
    rcases trailing_tick_mem entry p with he | he <;> rw [he]
    · rcases List.mem_cons.mp (ih entry) with hm | hm
      · simp [hm]
      · simp [hm]
    · rcases List.mem_cons.mp (ih p) with hm | hm
      · simp [hm]
      · simp [hm]

theorem peak_history_chain (ps : List ℚ) :
    ∀ entry, List.Chain' (· ≤ ·) (peak_history entry ps) := by
  induction ps with
  | nil =>
    intro entry
    simp [peak_history]
  | cons p ps ih =>
    intro entry
    rw [peak_history]
    rw [List.chain'_cons']
    refine ⟨?_, ih (trailing_tick entry p)⟩
    intro h hh
    rw [peak_history_head] at hh
    injection hh with hh
    rw [← hh]
    exact le_trailing_tick_left entry p

/-- **C7** — in the trailing-stop monitor, for any sequence of observed
prices, the peak value is non-decreasing from tick to tick and at every
tick equals the maximum price seen so far (the entry price counting as
the price observed when the monitor starts): after any prefix it is a
member of the observed set and an upper bound of it. -/
theorem C7_trailing_peak (entry : ℚ) (prices : List ℚ) :
    List.Chain' (· ≤ ·) (peak_history entry prices) ∧
    (∀ pre post, prices = pre ++ post →
      peak_trace entry pre ∈ entry :: pre ∧
      (∀ x ∈ entry :: pre, x ≤ peak_trace entry pre)) := by
  refine ⟨peak_history_chain prices entry, ?_⟩
  intro pre post h
  refine ⟨peak_trace_mem pre entry, ?_⟩
  intro x hx
  rcases List.mem_cons.mp hx with hx | hx
  · subst hx
    exact (le_peak_trace pre x).1
  · exact (le_peak_trace pre entry).2 x hx

/-- Concrete instance of `C7_trailing_peak` at entry 10 and observed
prices `[12, 11]`: the peak is the maximum (12) of everything observed
after the prefix `[12]`. -/
theorem C7_trailing_peak_witness :
    List.Chain' (· ≤ ·) (peak_history 10 [12, 11]) ∧
    (peak_trace 10 [12] ∈ ([10, 12] : List ℚ) ∧
      ∀ x ∈ ([10, 12] : List ℚ), x ≤ peak_trace 10 [12]) :=
  ⟨(C7_trailing_peak 10 [12, 11]).1,
    (C7_trailing_peak 10 [12, 11]).2 [12] [11] rfl⟩

/-!
## RiskGovernor — `src/core/risk.py`, `consecutive_losses`

The query `SELECT profit_usd FROM trades ORDER BY timestamp DESC` hands
the trade profits most-recent-first; the loop counts while
`profit_usd < 0` and breaks at the first row that is not.
-/

/-- `consecutive_losses()` on the most-recent-first list of `profit_usd`
values: the length of the leading run of strictly negative entries. -/
def consecutive_losses : List ℚ → ℕ
  | [] => 0
  | p :: rest => if p < 0 then consecutive_losses rest + 1 else 0

/-- **C8, counterexample** — on the most-recent-first profit sequence
`[-1, -1, -1, +2]` the code returns 3, not 0: the three most recent
trades are losses, and the `+2` is the oldest row, not the most recent
one. -/
theorem C8_counterexample :
    consecutive_losses [-1, -1, -1, 2] = 3 ∧
    consecutive_losses [-1, -1, -1, 2] ≠ 0 := by
  norm_num [consecutive_losses]

/-- **C8, amended** — `consecutive_losses()` walks trades
most-recent-first and returns the length of the run of strictly negative
`profit_usd` values up to the first non-negative one, which breaks the
streak immediately; in particular, for the most-recent-first profit
sequence `[-1, -1, -1, +2]` it returns 3, and for `[-1, -1, +2, -1]` it
returns 2. -/
theorem C8_consecutive_losses (l : List ℚ) :
    consecutive_losses l = (l.takeWhile (fun p => decide (p < 0))).length ∧
    consecutive_losses [-1, -1, -1, 2] = 3 ∧
    consecutive_losses [-1, -1, 2, -1] = 2 := by
  refine ⟨?_, by norm_num [consecutive_losses], by norm_num [consecutive_losses]⟩
  induction l with
  | nil => rfl
  | cons p rest ih =>
    by_cases h : p < 0
    · simp [consecutive_losses, List.takeWhile, h, ih]
    · simp [consecutive_losses, List.takeWhile, h]

end Wbtx
